import Mathlib

/-!
Shallow embedding of `wrapper-cloud-run/src_wrapper_backup/process.rs`
(plus the `ExecRequest` shape from `types.rs`).

Modelling conventions:
* JSON documents (`serde_json::Value`) are modelled by the inductive `Json`;
  numbers are restricted to integers, which covers every number this program
  constructs or inspects (`as_i64` is modelled with its i64-range guard).
* An SSE `Event` carries a kind and a payload; payloads built in the source
  via `json!(...).to_string()` are represented by their JSON value
  (`EventData.json`), payloads built from plain strings by `EventData.text`.
* Effects of the OS and of `serde_json::from_str` are supplied by a `World`
  record (filesystem probes, spawn outcome, stream contents, a parse oracle,
  the select-loop interleaving schedule, and whether/when the tokio timeout
  elapses first).
* `tokio::io::AsyncBufReadExt::lines` semantics: lines are split on `'\n'`,
  a carriage return preceding the newline is stripped, and a final segment
  not terminated by a newline is still yielded as a line.
* `tokio::process::Command` without `env_clear`: the child inherits the whole
  parent environment, with the explicitly `env`-set pairs as overrides.
-/

/-- JSON values, as constructed and inspected by the wrapper
(numbers restricted to integers, which is all this program uses). -/
inductive Json where
  | null : Json
  | bool (b : Bool) : Json
  | num (n : Int) : Json
  | str (s : String) : Json
  | arr (elems : List Json) : Json
  | obj (fields : List (String × Json)) : Json

/-- Field lookup in a JSON object's field list (first match wins). -/
def lookupField : List (String × Json) → String → Option Json
  | [], _ => none
  | (k, v) :: rest, key => if k = key then some v else lookupField rest key

/-- `Value::get(key)` on objects; `none` on every other JSON shape. -/
def Json.get : Json → String → Option Json
  | .obj fields, key => lookupField fields key
  | _, _ => none

/-- `Value::as_str`. -/
def Json.asStr : Json → Option String
  | .str s => some s
  | _ => none

/-- `Value::as_i64`: an integer number within the i64 range, else `none`. -/
def Json.asI64 : Json → Option Int
  | .num n => if -(2 ^ 63) ≤ n ∧ n < 2 ^ 63 then some n else none
  | _ => none

/-- The event names used by the wrapper's SSE stream. -/
inductive EventKind where
  | task_started | stdout_line | stderr_line
  | task_progress | task_result | task_completed | error
deriving DecidableEq

/-- An SSE event payload: a plain string (`.data(s)`) or a JSON document
(`.data(json!(...).to_string())`, represented by its value). -/
inductive EventData where
  | text (s : String) : EventData
  | json (j : Json) : EventData

/-- An SSE event as sent on the unbounded channel. -/
structure Event where
  kind : EventKind
  data : EventData

/-- Drop a trailing carriage return, as `next_line` does after removing
the newline. -/
def stripCRChars (cs : List Char) : List Char :=
  match cs.getLast? with
  | some c => if c = '\r' then cs.dropLast else cs
  | none => cs

/-- The newline-separated segments of a character stream (one segment more
than there are newlines). -/
def segmentsOf : List Char → List (List Char)
  | [] => [[]]
  | c :: cs =>
    match segmentsOf cs with
    | [] => [[]]
    | seg :: rest =>
      if c = '\n' then [] :: seg :: rest
      else (c :: seg) :: rest

/-- `AsyncBufReadExt::lines` on a whole byte stream: split on `'\n'`,
strip a `'\r'` preceding each newline, and yield a final unterminated
segment as a line (dropping only the empty segment after a final newline). -/
def splitLines (s : String) : List String :=
  let segs := segmentsOf s.data
  let terminated := (segs.dropLast.map stripCRChars).map String.mk
  match segs.getLast? with
  | some [] => terminated
  | some last => terminated ++ [String.mk last]
  | none => terminated

/-- Filesystem facts consulted by `find_app_server_binary`:
the current executable path, `Path::parent`, `Path::exists`, and
`Path::canonicalize`. -/
structure FileSystem where
  currentExe : Option String
  parentDir : String → Option String
  pathExists : String → Bool
  canonicalize : String → Option String

/-- `exe_dir.join("codex-app-server")`. -/
def pathJoin (dir file : String) : String := dir ++ "/" ++ file

/-- The loop over the fixed relative candidates: an existing path that
canonicalizes wins; a candidate whose canonicalization fails is skipped. -/
def tryCandidates (fs : FileSystem) : List String → Option String
  | [] => none
  | p :: rest =>
    if fs.pathExists p then
      match fs.canonicalize p with
      | some c => some c
      | none => tryCandidates fs rest
    else tryCandidates fs rest

/-- `find_app_server_binary` (process.rs lines 91–123): (1) sibling of the
current executable, (2) `./codex-app-server`, (3) the relative release-build
path, (4) the bare name as fallback. -/
def find_app_server_binary (fs : FileSystem) : Option String :=
  let fromExe : Option String :=
    match fs.currentExe with
    | some exePath =>
      match fs.parentDir exePath with
      | some exeDir =>
        let candidate := pathJoin exeDir "codex-app-server"
        if fs.pathExists candidate then some candidate else none
      | none => none
    | none => none
  match fromExe with
  | some p => some p
  | none =>
    match tryCandidates fs
        ["./codex-app-server", "../app-server/target/release/codex-app-server"] with
    | some p => some p
    | none => some "codex-app-server"

/-- Outcome of `serde_json::from_str::<serde_json::Value>` on one stdout
line, supplied by the environment as a parse oracle. -/
inductive ParseOutcome where
  | ok (j : Json) : ParseOutcome
  | fail (msg : String) : ParseOutcome

/-- The `error` event emitted when a stdout line fails to parse
(process.rs lines 316–327). -/
def jsonParseErrorEvent (session_id msg line : String) : Event :=
  ⟨.error, .json (.obj
    [("session_id", .str session_id),
     ("error", .str "json_parse"),
     ("message", .str ("Erro ao fazer parsing de stdout: " ++ msg)),
     ("line", .str line)])⟩

/-- Events from the `method == "task/progress"` check (lines 295–303). -/
def progressEvents (j : Json) : List Event :=
  match (j.get "method").bind Json.asStr with
  | some m => if m = "task/progress" then [⟨.task_progress, .json j⟩] else []
  | none => []

/-- Events from the `id == 2` / `result` check (lines 304–314). -/
def resultEvents (j : Json) : List Event :=
  match (j.get "id").bind Json.asI64 with
  | some i =>
    if i = 2 then
      match j.get "result" with
      | some r => [⟨.task_result, .json r⟩]
      | none => []
    else []
  | none => []

/-- All events the select loop emits for one stdout line: the raw
`stdout_line` first, then the translated events or the parse error. -/
def processStdoutLine (parse : String → ParseOutcome) (session_id line : String) :
    List Event :=
  ⟨.stdout_line, .text line⟩ ::
    match parse line with
    | .ok j => progressEvents j ++ resultEvents j
    | .fail msg => [jsonParseErrorEvent session_id msg line]

/-- A line as it arrives on the merged channels, tagged by origin. -/
inductive Tagged where
  | fromOut (line : String) : Tagged
  | fromErr (line : String) : Tagged

/-- State built by the select loop: emitted events plus the two buffers. -/
structure LoopState where
  events : List Event
  stdout_buffer : List String
  stderr_buffer : List String

/-- The select loop (lines 288–338), processing the merged tagged lines in
arrival order; each stdout line is also pushed onto `stdout_buffer`, each
stderr line onto `stderr_buffer`. -/
def runLoop (parse : String → ParseOutcome) (session_id : String) :
    List Tagged → LoopState
  | [] => ⟨[], [], []⟩
  | .fromOut line :: rest =>
    let r := runLoop parse session_id rest
    ⟨processStdoutLine parse session_id line ++ r.events,
     line :: r.stdout_buffer, r.stderr_buffer⟩
  | .fromErr line :: rest =>
    let r := runLoop parse session_id rest
    ⟨⟨.stderr_line, .text line⟩ :: r.events,
     r.stdout_buffer, line :: r.stderr_buffer⟩

/-- The nondeterministic fair merge of the two line channels performed by
`tokio::select!`, with explicit fuel (one unit per line) to keep the
recursion structural: the schedule picks which ready branch fires when both
channels have a line; a drained channel never blocks the other. -/
def interleaveFuel : Nat → List String → List String → List Bool → List Tagged
  | _, [], [], _ => []
  | Nat.succ fuel, [], e :: es, sched =>
    .fromErr e :: interleaveFuel fuel [] es sched
  | Nat.succ fuel, o :: os, [], sched =>
    .fromOut o :: interleaveFuel fuel os [] sched
  | Nat.succ fuel, o :: os, e :: es, [] =>
    .fromOut o :: interleaveFuel fuel os (e :: es) []
  | Nat.succ fuel, o :: os, e :: es, b :: sched =>
    if b then .fromOut o :: interleaveFuel fuel os (e :: es) sched
    else .fromErr e :: interleaveFuel fuel (o :: os) es sched
  | 0, _, _, _ => []

/-- The merge of the two line channels, with exactly enough fuel. -/
def interleave (so se : List String) (sched : List Bool) : List Tagged :=
  interleaveFuel (so.length + se.length) so se sched

/-- `std::process::ExitStatus`, as observed through `code()`/`success()`. -/
structure ExitStatusM where
  code : Option Int
  success : Bool

/-- The observable behaviour of a successfully spawned child process. -/
structure SpawnedChild where
  stdinAvail : Bool
  writeOk : Bool
  writeErr : String
  stdoutAvail : Bool
  stderrAvail : Bool
  stdoutData : String
  stderrData : String
  exit : Option ExitStatusM

/-- The record serialized for Cloud Storage (process.rs lines 26–38);
`timestamp` is an abstract clock value. -/
structure SessionPersistData where
  session_id : String
  prompt : String
  exit_code : Int
  status : String
  execution_time_ms : Nat
  stdout : List String
  stderr : List String
  created_files : Option (List String)
  timestamp : Nat
  metadata : Json

/-- Everything the OS, the clock, serde and tokio decide during one
session. `deadlineAt` is the number of events the session future has
emitted at the moment the deadline elapses: the deadline always elapses
eventually, and a future that returns early wins the race exactly when it
has already emitted all of its events and returned by then. -/
structure World where
  fs : FileSystem
  parse : String → ParseOutcome
  env : String → Option String
  spawnOutcome : Option SpawnedChild
  spawnErr : String
  schedule : List Bool
  now : Nat
  freshUuid : String
  deadlineAt : Nat

/-- Result of the session future: every event it ever emits, what it wrote
to the child's stdin, whether it returns at all (only the early-return
failure paths do — with setup complete the select loop never terminates,
see `run_process_with_ref`), and whether it panicked (an `unwrap` failed). -/
structure RunResult where
  events : List Event
  stdinWritten : List Json
  completes : Bool
  panicked : Bool

/-- The `initialize` JSON-RPC call, id 1 (lines 219–229). -/
def initCmd : Json :=
  .obj [("jsonrpc", .str "2.0"), ("id", .num 1), ("method", .str "initialize"),
    ("params", .obj [("clientInfo", .obj
      [("name", .str "cloud-wrapper"), ("version", .str "1.0.0")])])]

/-- The `execOneOffCommand` JSON-RPC call, id 2 (lines 230–239). -/
def execCmd (prompt : String) (timeout_ms : Nat) : Json :=
  .obj [("jsonrpc", .str "2.0"), ("id", .num 2),
    ("method", .str "execOneOffCommand"),
    ("params", .obj [("command", .arr [.str prompt]),
      ("timeoutMs", .num timeout_ms),
      ("sandboxPolicy", .str "DangerFullAccess")])]

/-- The `task_started` event (lines 135–143). -/
def taskStartedEvent (session_id : String) : Event :=
  ⟨.task_started, .json (.obj
    [("session_id", .str session_id), ("status", .str "initializing")])⟩

/-- `run_process_with_ref` (lines 126–376): emit `task_started`, locate the
binary, spawn, take stdin (error event + return when absent), write the two
JSON-RPC commands (error event + return on failure), take stdout/stderr
(`unwrap`: a missing handle panics the task), then run the select loop over
the merged line channels.

The code after the loop (lines 341–375: `child.wait()`, the
`task_completed` event and the success persist record) is dead: the select
loop can never break, because the original `stdout_tx`/`stderr_tx` senders
created at lines 258–259 are never dropped (the reader tasks capture only
clones), so `recv()` never returns `None` and the `else => break` branch
never fires — and line 341 would in any case re-lock `child_ref` while the
guard taken at line 208 is still held. A session with completed setup
therefore emits `task_started` and the loop's line events and then pends
forever (`completes = false`); it can only end through the caller's
timeout. -/
def run_process_with_ref (prompt : String) (timeout_ms : Nat)
    (session_id : String) (w : World) : RunResult :=
  let started := taskStartedEvent session_id
  match find_app_server_binary w.fs with
  | none =>
    ⟨[started, ⟨.error, .text "codex-app-server binary not found"⟩], [], true, false⟩
  | some _path =>
    match w.spawnOutcome with
    | none =>
      ⟨[started, ⟨.error, .text ("Failed to spawn process: " ++ w.spawnErr)⟩],
       [], true, false⟩
    | some child =>
      if !child.stdinAvail then
        ⟨[started, ⟨.error, .text "Failed to open stdin"⟩], [], true, false⟩
      else if !child.writeOk then
        ⟨[started, ⟨.error, .text ("Failed to write to stdin: " ++ child.writeErr)⟩],
         [], true, false⟩
      else
        let written := [initCmd, execCmd prompt timeout_ms]
        if !child.stdoutAvail then ⟨[started], written, false, true⟩
        else if !child.stderrAvail then ⟨[started], written, false, true⟩
        else
        let tape := interleave (splitLines child.stdoutData)
          (splitLines child.stderrData) w.schedule
        ⟨started :: (runLoop w.parse session_id tape).events,
         written, false, false⟩

/-- `ExecRequest` (types.rs lines 6–11). -/
structure ExecRequest where
  prompt : String
  timeout_ms : Option Nat
  session_id : Option String

/-- The `error` event emitted on deadline expiry (lines 393–401). -/
def timeoutErrorEvent (session_id : String) (timeout_ms : Nat) : Event :=
  ⟨.error, .json (.obj
    [("session_id", .str session_id),
     ("error", .str "timeout"),
     ("message", .str ("Subprocesso excedeu o tempo limite de "
        ++ toString timeout_ms ++ "ms e foi encerrado forçadamente"))])⟩

/-- The record persisted on the timeout branch (lines 404–415). -/
def timeoutPersistData (session_id prompt : String) (timeout_ms now : Nat) :
    SessionPersistData :=
  ⟨session_id, prompt, -1, "timeout", timeout_ms, [], [], none, now,
   .obj [("error", .str "timeout")]⟩

/-- What a whole call to `run_codex_app_server_stream` produces: the event
sequence delivered on the SSE stream, the record handed to
`save_session_to_storage`, and whether the timeout branch called
`child.kill()` on a stored child handle. -/
structure SessionOutcome where
  events : List Event
  persist : Option SessionPersistData
  childKilled : Bool

/-- Whether the deadline branch of `tokio::time::timeout` fires: always,
for a future stuck in the select loop; only when the deadline elapses
before all events were emitted and the future returned, for an
early-returning failure path; never for a panicking future, whose panic
tears the whole task down before the deadline can act (its only pre-panic
suspension points resolve immediately). -/
def timeoutFires (r : RunResult) (w : World) : Bool :=
  if r.panicked then false
  else if r.completes then decide (w.deadlineAt < r.events.length)
  else true

/-- `run_codex_app_server_stream` (lines 66–423): defaults `timeout_ms` to
30000 and `session_id` to a fresh UUID, then races the session future
against the deadline. Because a session with completed setup never
finishes (its select loop cannot break), the timeout branch is the only
way such a session ends: the future is cancelled having emitted
`w.deadlineAt` of its events (all of them, when the lines were relayed
before the deadline), any stored child is killed, and the timeout `error`
event and the timeout record are produced. An early-returning failure path
wins the race iff it finished before the deadline; a panic tears the task
down with no terminal event. -/
def run_codex_app_server_stream (req : ExecRequest) (w : World) : SessionOutcome :=
  let timeout_ms := req.timeout_ms.getD 30000
  let session_id := req.session_id.getD w.freshUuid
  let r := run_process_with_ref req.prompt timeout_ms session_id w
  if timeoutFires r w then
    ⟨r.events.take w.deadlineAt ++ [timeoutErrorEvent session_id timeout_ms],
     some (timeoutPersistData session_id req.prompt timeout_ms w.now),
     w.spawnOutcome.isSome⟩
  else ⟨r.events, none, false⟩

/-- The seven environment variables the source explicitly forwards
(lines 165–188), in source order. -/
def envAllowlist : List String :=
  ["ANTHROPIC_API_KEY", "OPENAI_API_KEY", "OPENROUTER_API_KEY",
   "GOOGLE_API_KEY", "CODEX_CONFIG_PATH", "RUST_LOG",
   "CODEX_UNSAFE_ALLOW_NO_SANDBOX"]

/-- One `if let Ok(val) = env::var(name) { cmd.env(name, val) }` block. -/
def envPair (parent : String → Option String) (name : String) :
    List (String × String) :=
  match parent name with
  | some val => [(name, val)]
  | none => []

/-- The explicit `cmd.env(...)` pairs set on the `Command`, in the order the
seven conditionals run. -/
def commandEnvOverrides (parent : String → Option String) :
    List (String × String) :=
  envPair parent "ANTHROPIC_API_KEY" ++ envPair parent "OPENAI_API_KEY" ++
  envPair parent "OPENROUTER_API_KEY" ++ envPair parent "GOOGLE_API_KEY" ++
  envPair parent "CODEX_CONFIG_PATH" ++ envPair parent "RUST_LOG" ++
  envPair parent "CODEX_UNSAFE_ALLOW_NO_SANDBOX"

/-- Lookup in the explicit override pairs. -/
def lookupOverride : List (String × String) → String → Option String
  | [], _ => none
  | (k, v) :: rest, key => if k = key then some v else lookupOverride rest key

/-- The environment the spawned child receives. `Command::spawn` without
`env_clear` gives the child the parent's whole environment, with the
explicitly set pairs as overrides. -/
def spawnedChildEnv (parent : String → Option String) (name : String) :
    Option String :=
  match lookupOverride (commandEnvOverrides parent) name with
  | some v => some v
  | none => parent name

/-- Recognizer for the timeout `error` event: an `error`-kind event whose
JSON payload has `"error": "timeout"`. -/
def isTimeoutError (e : Event) : Bool :=
  match e with
  | ⟨.error, .json j⟩ =>
    match j.get "error" with
    | some (.str s) => s == "timeout"
    | _ => false
  | _ => false

/-- A terminal event in the sense of the spec: `task_completed` or the
timeout `error`. -/
def isTerminalEvent (e : Event) : Bool :=
  e.kind == .task_completed || isTimeoutError e

/-- Number of events of a given kind. -/
def countKind (k : EventKind) (evs : List Event) : Nat :=
  evs.countP (fun e => e.kind == k)

/-- An event that is neither `task_started`, nor `task_completed`, nor the
timeout `error`: everything the select loop emits is of this shape. -/
def neutralEvent (e : Event) : Bool :=
  !(e.kind == .task_started) && !(e.kind == .task_completed) && !(isTimeoutError e)

theorem jsonParseErrorEvent_neutral (session_id msg line : String) :
    neutralEvent (jsonParseErrorEvent session_id msg line) = true := by
  simp [neutralEvent, jsonParseErrorEvent, isTimeoutError, Json.get, lookupField]

theorem progressEvents_neutral (j : Json) :
    ∀ e ∈ progressEvents j, neutralEvent e = true := by
  unfold progressEvents
  cases (j.get "method").bind Json.asStr with
  | none => simp
  | some m =>
    by_cases hm : m = "task/progress" <;>
      simp [hm, neutralEvent, isTimeoutError]

theorem resultEvents_neutral (j : Json) :
    ∀ e ∈ resultEvents j, neutralEvent e = true := by
  unfold resultEvents
  cases (j.get "id").bind Json.asI64 with
  | none => simp
  | some i =>
    by_cases hi : i = 2
    · cases j.get "result" with
      | none => simp [hi]
      | some r => simp [hi, neutralEvent, isTimeoutError]
    · simp [hi]

theorem processStdoutLine_neutral (parse : String → ParseOutcome)
    (session_id line : String) :
    ∀ e ∈ processStdoutLine parse session_id line, neutralEvent e = true := by
  unfold processStdoutLine
  cases parse line with
  | ok j =>
    intro e he
    rcases List.mem_cons.mp he with rfl | he
    · simp [neutralEvent, isTimeoutError]
    · rcases List.mem_append.mp he with h | h
      · exact progressEvents_neutral j e h
      · exact resultEvents_neutral j e h
  | fail msg =>
    intro e he
    rcases List.mem_cons.mp he with rfl | he
    · simp [neutralEvent, isTimeoutError]
    · simp only [List.mem_singleton] at he
      subst he
      exact jsonParseErrorEvent_neutral session_id msg line

theorem runLoop_events_neutral (parse : String → ParseOutcome)
    (session_id : String) (ts : List Tagged) :
    ∀ e ∈ (runLoop parse session_id ts).events, neutralEvent e = true := by
  induction ts with
  | nil => simp [runLoop]
  | cons t rest ih =>
    cases t with
    | fromOut line =>
      intro e he
      simp only [runLoop, List.mem_append] at he
      rcases he with h | h
      · exact processStdoutLine_neutral parse session_id line e h
      · exact ih e h
    | fromErr line =>
      intro e he
      simp only [runLoop, List.mem_cons] at he
      rcases he with rfl | h
      · simp [neutralEvent, isTimeoutError]
      · exact ih e h

/-- The stdout lines of a tagged tape, in order. -/
def outLines : List Tagged → List String
  | [] => []
  | .fromOut l :: ts => l :: outLines ts
  | .fromErr _ :: ts => outLines ts

/-- The stderr lines of a tagged tape, in order. -/
def errLines : List Tagged → List String
  | [] => []
  | .fromOut _ :: ts => errLines ts
  | .fromErr l :: ts => l :: errLines ts

theorem runLoop_stdout_buffer (parse : String → ParseOutcome)
    (session_id : String) (ts : List Tagged) :
    (runLoop parse session_id ts).stdout_buffer = outLines ts := by
  induction ts with
  | nil => rfl
  | cons t rest ih => cases t <;> simp [runLoop, outLines, ih]

theorem runLoop_stderr_buffer (parse : String → ParseOutcome)
    (session_id : String) (ts : List Tagged) :
    (runLoop parse session_id ts).stderr_buffer = errLines ts := by
  induction ts with
  | nil => rfl
  | cons t rest ih => cases t <;> simp [runLoop, errLines, ih]

/-- Extract the line of a `stdout_line` event. -/
def stdoutLineOf (e : Event) : Option String :=
  match e with
  | ⟨.stdout_line, .text l⟩ => some l
  | _ => none

/-- Extract the line of a `stderr_line` event. -/
def stderrLineOf (e : Event) : Option String :=
  match e with
  | ⟨.stderr_line, .text l⟩ => some l
  | _ => none

theorem progressEvents_no_stdout_line (j : Json) :
    (progressEvents j).filterMap stdoutLineOf = [] := by
  unfold progressEvents
  cases (j.get "method").bind Json.asStr with
  | none => simp
  | some m => by_cases hm : m = "task/progress" <;> simp [hm, stdoutLineOf]

theorem resultEvents_no_stdout_line (j : Json) :
    (resultEvents j).filterMap stdoutLineOf = [] := by
  unfold resultEvents
  cases (j.get "id").bind Json.asI64 with
  | none => simp
  | some i =>
    by_cases hi : i = 2
    · cases j.get "result" with
      | none => simp [hi]
      | some r => simp [hi, stdoutLineOf]
    · simp [hi]

theorem processStdoutLine_stdout_lines (parse : String → ParseOutcome)
    (session_id line : String) :
    (processStdoutLine parse session_id line).filterMap stdoutLineOf = [line] := by
  unfold processStdoutLine
  cases parse line with
  | ok j =>
    simp [stdoutLineOf, List.filterMap_append,
      progressEvents_no_stdout_line, resultEvents_no_stdout_line]
  | fail msg => simp [stdoutLineOf, jsonParseErrorEvent]

theorem progressEvents_no_stderr_line (j : Json) :
    (progressEvents j).filterMap stderrLineOf = [] := by
  unfold progressEvents
  cases (j.get "method").bind Json.asStr with
  | none => simp
  | some m => by_cases hm : m = "task/progress" <;> simp [hm, stderrLineOf]

theorem resultEvents_no_stderr_line (j : Json) :
    (resultEvents j).filterMap stderrLineOf = [] := by
  unfold resultEvents
  cases (j.get "id").bind Json.asI64 with
  | none => simp
  | some i =>
    by_cases hi : i = 2
    · cases j.get "result" with
      | none => simp [hi]
      | some r => simp [hi, stderrLineOf]
    · simp [hi]

theorem processStdoutLine_stderr_lines (parse : String → ParseOutcome)
    (session_id line : String) :
    (processStdoutLine parse session_id line).filterMap stderrLineOf = [] := by
  unfold processStdoutLine
  cases parse line with
  | ok j =>
    simp [stderrLineOf, List.filterMap_append,
      progressEvents_no_stderr_line, resultEvents_no_stderr_line]
  | fail msg => simp [stderrLineOf, jsonParseErrorEvent]

/-- Every stdout line of the tape yields exactly one `stdout_line` event,
in tape order. -/
theorem runLoop_stdout_lines (parse : String → ParseOutcome)
    (session_id : String) (ts : List Tagged) :
    (runLoop parse session_id ts).events.filterMap stdoutLineOf = outLines ts := by
  induction ts with
  | nil => rfl
  | cons t rest ih =>
    cases t with
    | fromOut line =>
      simp [runLoop, outLines, List.filterMap_append,
        processStdoutLine_stdout_lines, ih]
    | fromErr line => simp [runLoop, outLines, stdoutLineOf, ih]

/-- Every stderr line of the tape yields exactly one `stderr_line` event,
in tape order. -/
theorem runLoop_stderr_lines (parse : String → ParseOutcome)
    (session_id : String) (ts : List Tagged) :
    (runLoop parse session_id ts).events.filterMap stderrLineOf = errLines ts := by
  induction ts with
  | nil => rfl
  | cons t rest ih =>
    cases t with
    | fromOut line =>
      simp [runLoop, errLines, List.filterMap_append,
        processStdoutLine_stderr_lines, ih]
    | fromErr line => simp [runLoop, errLines, stderrLineOf, ih]

theorem interleaveFuel_outLines (fuel : Nat) :
    ∀ (so se : List String) (sched : List Bool),
      so.length + se.length ≤ fuel →
      outLines (interleaveFuel fuel so se sched) = so := by
  induction fuel with
  | zero =>
    intro so se sched h
    cases so with
    | nil =>
      cases se with
      | nil => simp [interleaveFuel, outLines]
      | cons e es => simp at h
    | cons o os => simp at h
  | succ fuel ih =>
    intro so se sched h
    cases so with
    | nil =>
      cases se with
      | nil => simp [interleaveFuel, outLines]
      | cons e es =>
        simp only [interleaveFuel, outLines]
        exact ih [] es sched (by simp at h ⊢; omega)
    | cons o os =>
      cases se with
      | nil =>
        simp only [interleaveFuel, outLines]
        rw [ih os [] sched (by simp at h ⊢; omega)]
      | cons e es =>
        cases sched with
        | nil =>
          simp only [interleaveFuel, outLines]
          rw [ih os (e :: es) [] (by simp at h ⊢; omega)]
        | cons b sb =>
          cases b with
          | true =>
            simp only [interleaveFuel, if_pos, outLines]
            rw [ih os (e :: es) sb (by simp at h ⊢; omega)]
          | false =>
            simp only [interleaveFuel, Bool.false_eq_true, if_false, outLines]
            rw [ih (o :: os) es sb (by simp at h ⊢; omega)]

theorem interleaveFuel_errLines (fuel : Nat) :
    ∀ (so se : List String) (sched : List Bool),
      so.length + se.length ≤ fuel →
      errLines (interleaveFuel fuel so se sched) = se := by
  induction fuel with
  | zero =>
    intro so se sched h
    cases so with
    | nil =>
      cases se with
      | nil => simp [interleaveFuel, errLines]
      | cons e es => simp at h
    | cons o os => simp at h
  | succ fuel ih =>
    intro so se sched h
    cases so with
    | nil =>
      cases se with
      | nil => simp [interleaveFuel, errLines]
      | cons e es =>
        simp only [interleaveFuel, errLines]
        rw [ih [] es sched (by simp at h ⊢; omega)]
    | cons o os =>
      cases se with
      | nil =>
        simp only [interleaveFuel, errLines]
        rw [ih os [] sched (by simp at h ⊢; omega)]
      | cons e es =>
        cases sched with
        | nil =>
          simp only [interleaveFuel, errLines]
          rw [ih os (e :: es) [] (by simp at h ⊢; omega)]
        | cons b sb =>
          cases b with
          | true =>
            simp only [interleaveFuel, if_pos, errLines]
            rw [ih os (e :: es) sb (by simp at h ⊢; omega)]
          | false =>
            simp only [interleaveFuel, Bool.false_eq_true, if_false, errLines]
            rw [ih (o :: os) es sb (by simp at h ⊢; omega)]

/-- The merge never loses, duplicates or reorders stdout lines. -/
theorem interleave_outLines (so se : List String) (sched : List Bool) :
    outLines (interleave so se sched) = so :=
  interleaveFuel_outLines _ so se sched (Nat.le_refl _)

/-- The merge never loses, duplicates or reorders stderr lines. -/
theorem interleave_errLines (so se : List String) (sched : List Bool) :
    errLines (interleave so se sched) = se :=
  interleaveFuel_errLines _ so se sched (Nat.le_refl _)

/-- The sibling-of-current-executable probe: the joined path when the
current executable and its parent directory resolve and the candidate
exists (the first branch of `find_app_server_binary`). -/
def siblingHit (fs : FileSystem) : Option String :=
  match fs.currentExe with
  | some exePath =>
    match fs.parentDir exePath with
    | some exeDir =>
      let candidate := pathJoin exeDir "codex-app-server"
      if fs.pathExists candidate then some candidate else none
    | none => none
  | none => none

theorem find_app_server_binary_eq (fs : FileSystem) :
    find_app_server_binary fs =
      match siblingHit fs with
      | some p => some p
      | none =>
        match tryCandidates fs
            ["./codex-app-server",
             "../app-server/target/release/codex-app-server"] with
        | some p => some p
        | none => some "codex-app-server" := rfl

theorem find_app_server_binary_isSome (fs : FileSystem) :
    (find_app_server_binary fs).isSome = true := by
  rw [find_app_server_binary_eq]
  rcases siblingHit fs with _ | p
  · rcases h : tryCandidates fs
        ["./codex-app-server",
         "../app-server/target/release/codex-app-server"] with _ | p <;>
      simp [h]
  · simp

/-- C7. The binary locator never fails: for every filesystem state it
returns a path; it probes (1) the sibling of the current executable,
(2) `./codex-app-server`, (3) `../app-server/target/release/codex-app-server`,
(4) the bare name, and the first existing candidate wins (stated for
filesystems on which every existing path canonicalizes, which is how a
consistent filesystem behaves). -/
theorem c7_locator_total_and_ordered (fs : FileSystem)
    (hc : ∀ p, fs.pathExists p = true → (fs.canonicalize p).isSome = true) :
    (find_app_server_binary fs).isSome = true
    ∧ (∀ c, siblingHit fs = some c → find_app_server_binary fs = some c)
    ∧ (siblingHit fs = none → fs.pathExists "./codex-app-server" = true →
        find_app_server_binary fs = fs.canonicalize "./codex-app-server")
    ∧ (siblingHit fs = none → fs.pathExists "./codex-app-server" = false →
        fs.pathExists "../app-server/target/release/codex-app-server" = true →
        find_app_server_binary fs
          = fs.canonicalize "../app-server/target/release/codex-app-server")
    ∧ (siblingHit fs = none → fs.pathExists "./codex-app-server" = false →
        fs.pathExists "../app-server/target/release/codex-app-server" = false →
        find_app_server_binary fs = some "codex-app-server") := by
  refine ⟨find_app_server_binary_isSome fs, ?_, ?_, ?_, ?_⟩
  · intro c hcnd
    rw [find_app_server_binary_eq, hcnd]
  · intro hsib h1
    obtain ⟨c1, hc1⟩ := Option.isSome_iff_exists.mp (hc _ h1)
    rw [find_app_server_binary_eq, hsib]
    simp [tryCandidates, h1, hc1]
  · intro hsib h1 h2
    obtain ⟨c2, hc2⟩ := Option.isSome_iff_exists.mp (hc _ h2)
    rw [find_app_server_binary_eq, hsib]
    simp [tryCandidates, h1, h2, hc2]
  · intro hsib h1 h2
    rw [find_app_server_binary_eq, hsib]
    simp [tryCandidates, h1, h2]

/-- A filesystem on which nothing exists and nothing resolves. -/
def fsBare : FileSystem :=
  ⟨none, fun _ => none, fun _ => false, fun _ => none⟩

theorem c7_locator_total_and_ordered_witness :
    (find_app_server_binary fsBare).isSome = true
    ∧ find_app_server_binary fsBare = some "codex-app-server" := by
  have h := c7_locator_total_and_ordered fsBare (fun p hp => by
    simp [fsBare] at hp)
  exact ⟨h.1, h.2.2.2.2 rfl rfl rfl⟩

/-- The override pairs produced by running the `if let Ok(val) = env::var(n)`
blocks over a list of names in order. -/
def buildOverrides (parent : String → Option String) :
    List String → List (String × String)
  | [] => []
  | n :: rest => envPair parent n ++ buildOverrides parent rest

theorem commandEnvOverrides_eq_build (parent : String → Option String) :
    commandEnvOverrides parent = buildOverrides parent envAllowlist := by
  simp [commandEnvOverrides, buildOverrides, envAllowlist]

theorem lookupOverride_append (a b : List (String × String)) (key : String) :
    lookupOverride (a ++ b) key =
      match lookupOverride a key with
      | some v => some v
      | none => lookupOverride b key := by
  induction a with
  | nil => simp [lookupOverride]
  | cons p rest ih =>
    obtain ⟨k, v⟩ := p
    by_cases hk : k = key <;> simp [lookupOverride, hk, ih]

theorem lookupOverride_envPair_self (parent : String → Option String)
    (n : String) : lookupOverride (envPair parent n) n = parent n := by
  cases h : parent n <;> simp [envPair, h, lookupOverride]

theorem lookupOverride_envPair_other (parent : String → Option String)
    (n key : String) (hne : key ≠ n) :
    lookupOverride (envPair parent n) key = none := by
  cases h : parent n <;> simp [envPair, h, lookupOverride, Ne.symm hne]

theorem lookupOverride_buildOverrides (parent : String → Option String)
    (names : List String) (name : String) :
    lookupOverride (buildOverrides parent names) name =
      if name ∈ names then parent name else none := by
  induction names with
  | nil => simp [buildOverrides, lookupOverride]
  | cons n rest ih =>
    by_cases h : name = n
    · subst h
      rw [buildOverrides, lookupOverride_append, lookupOverride_envPair_self]
      cases hpn : parent name with
      | none => simp [ih, hpn]
      | some v => simp
    · rw [buildOverrides, lookupOverride_append,
        lookupOverride_envPair_other parent n name h, ih]
      simp [h]

/-- Explicit overrides are exactly the allowlisted variables present in the
parent environment, verbatim. -/
theorem lookupOverride_commandEnvOverrides (parent : String → Option String)
    (name : String) :
    lookupOverride (commandEnvOverrides parent) name =
      if name ∈ envAllowlist then parent name else none := by
  rw [commandEnvOverrides_eq_build, lookupOverride_buildOverrides]

/-- A parent environment holding one allowlisted credential and one
non-allowlisted secret. -/
def exampleParentEnv : String → Option String := fun name =>
  if name = "ANTHROPIC_API_KEY" then some "sk-key"
  else if name = "SECRET_TOKEN" then some "s3cr3t" else none

/-- C2 counterexample: `SECRET_TOKEN` is not in the allowlist, yet the
spawned child receives it — `Command` without `env_clear` lets the child
inherit the whole parent environment. -/
theorem c2_claim_counterexample_secret_inherited :
    ("SECRET_TOKEN" ∉ envAllowlist)
    ∧ spawnedChildEnv exampleParentEnv "SECRET_TOKEN" = some "s3cr3t" := by
  constructor
  · decide
  · rfl

/-- C2 amended: each allowlisted variable present in the parent environment
is explicitly set on the command verbatim, and only allowlisted variables
are explicitly set; but the child inherits everything else, so the child's
environment equals the parent's pointwise — non-allowlist variables are
propagated, not stripped. -/
theorem c2_env_allowlist_amended (parent : String → Option String) :
    (∀ name, name ∈ envAllowlist →
        lookupOverride (commandEnvOverrides parent) name = parent name)
    ∧ (∀ name, name ∉ envAllowlist →
        lookupOverride (commandEnvOverrides parent) name = none)
    ∧ (∀ name, spawnedChildEnv parent name = parent name) := by
  refine ⟨?_, ?_, ?_⟩
  · intro name hmem
    rw [lookupOverride_commandEnvOverrides]
    simp [hmem]
  · intro name hmem
    rw [lookupOverride_commandEnvOverrides]
    simp [hmem]
  · intro name
    unfold spawnedChildEnv
    rw [lookupOverride_commandEnvOverrides]
    by_cases hmem : name ∈ envAllowlist
    · cases hpn : parent name <;> simp [hmem, hpn]
    · simp [hmem]

theorem c2_env_allowlist_amended_witness :
    lookupOverride (commandEnvOverrides exampleParentEnv) "ANTHROPIC_API_KEY"
        = some "sk-key"
    ∧ lookupOverride (commandEnvOverrides exampleParentEnv) "SECRET_TOKEN" = none
    ∧ spawnedChildEnv exampleParentEnv "SECRET_TOKEN" = some "s3cr3t" :=
  ⟨((c2_env_allowlist_amended exampleParentEnv).1 "ANTHROPIC_API_KEY"
      (by decide)).trans rfl,
   (c2_env_allowlist_amended exampleParentEnv).2.1 "SECRET_TOKEN" (by decide),
   ((c2_env_allowlist_amended exampleParentEnv).2.2 "SECRET_TOKEN").trans rfl⟩

theorem neutralEvent_spec {e : Event} (h : neutralEvent e = true) :
    (e.kind == EventKind.task_started) = false
    ∧ (e.kind == EventKind.task_completed) = false
    ∧ isTimeoutError e = false := by
  simp only [neutralEvent, Bool.and_eq_true, Bool.not_eq_true'] at h
  exact ⟨h.1.1, h.1.2, h.2⟩

theorem neutralEvent_not_terminal {e : Event} (h : neutralEvent e = true) :
    isTerminalEvent e = false := by
  obtain ⟨_, h2, h3⟩ := neutralEvent_spec h
  simp [isTerminalEvent, h2, h3]

theorem neutral_countP_started {evs : List Event}
    (h : ∀ e ∈ evs, neutralEvent e = true) :
    evs.countP (fun e => e.kind == EventKind.task_started) = 0 :=
  List.countP_eq_zero.mpr fun e he => by
    simp [(neutralEvent_spec (h e he)).1]

theorem neutral_countP_terminal {evs : List Event}
    (h : ∀ e ∈ evs, neutralEvent e = true) :
    evs.countP isTerminalEvent = 0 :=
  List.countP_eq_zero.mpr fun e he => by
    simp [neutralEvent_not_terminal (h e he)]

theorem neutral_any_completed {evs : List Event}
    (h : ∀ e ∈ evs, neutralEvent e = true) :
    evs.any (fun e => e.kind == EventKind.task_completed) = false :=
  List.any_eq_false.mpr fun e he => by
    simp [(neutralEvent_spec (h e he)).2.1]

theorem neutral_any_timeout {evs : List Event}
    (h : ∀ e ∈ evs, neutralEvent e = true) :
    evs.any isTimeoutError = false :=
  List.any_eq_false.mpr fun e he => by
    simp [(neutralEvent_spec (h e he)).2.2]

theorem started_not_terminal (session_id : String) :
    isTerminalEvent (taskStartedEvent session_id) = false := by
  simp [taskStartedEvent, isTerminalEvent, isTimeoutError, Json.get, lookupField]

theorem started_not_timeout (session_id : String) :
    isTimeoutError (taskStartedEvent session_id) = false := by
  simp [taskStartedEvent, isTimeoutError, Json.get, lookupField]

theorem timeoutErrorEvent_is_timeout (session_id : String) (tms : Nat) :
    isTimeoutError (timeoutErrorEvent session_id tms) = true := by
  simp [timeoutErrorEvent, isTimeoutError, Json.get, lookupField]

/-- The select-loop state of a successfully set-up session. -/
def loopOf (w : World) (session_id : String) (child : SpawnedChild) : LoopState :=
  runLoop w.parse session_id
    (interleave (splitLines child.stdoutData) (splitLines child.stderrData)
      w.schedule)

theorem run_process_with_ref_success (prompt : String) (tms : Nat)
    (session_id : String) (w : World) (child : SpawnedChild)
    (hsp : w.spawnOutcome = some child)
    (h1 : child.stdinAvail = true) (h2 : child.writeOk = true)
    (h3 : child.stdoutAvail = true) (h4 : child.stderrAvail = true) :
    run_process_with_ref prompt tms session_id w =
      ⟨taskStartedEvent session_id :: (loopOf w session_id child).events,
       [initCmd, execCmd prompt tms], false, false⟩ := by
  obtain ⟨p, hp⟩ :=
    Option.isSome_iff_exists.mp (find_app_server_binary_isSome w.fs)
  simp [run_process_with_ref, hp, hsp, h1, h2, h3, h4, loopOf]

/-- A session whose setup succeeds never wins the race: its future is
stuck in the select loop, so the deadline branch always fires. -/
theorem timeoutFires_of_success (prompt : String) (tms : Nat)
    (session_id : String) (w : World) (child : SpawnedChild)
    (hsp : w.spawnOutcome = some child)
    (h1 : child.stdinAvail = true) (h2 : child.writeOk = true)
    (h3 : child.stdoutAvail = true) (h4 : child.stderrAvail = true) :
    timeoutFires (run_process_with_ref prompt tms session_id w) w = true := by
  rw [run_process_with_ref_success prompt tms session_id w child
    hsp h1 h2 h3 h4]
  rfl

/-- The property C1 asserts of one session's event sequence: it starts with
`task_started`, contains exactly one `task_started`, exactly one terminal
event (`task_completed` or the timeout `error`), the terminal event is last,
and the two terminal outcomes are mutually exclusive. -/
def claimC1holds (evs : List Event) : Bool :=
  (match evs.head? with
   | some e => e.kind == EventKind.task_started
   | none => false)
  && (evs.countP (fun e => e.kind == EventKind.task_started) == 1)
  && (evs.countP isTerminalEvent == 1)
  && (match evs.getLast? with
      | some e => isTerminalEvent e
      | none => false)
  && !(evs.any (fun e => e.kind == EventKind.task_completed)
       && evs.any isTimeoutError)

theorem taskStartedEvent_kind (session_id : String) :
    (taskStartedEvent session_id).kind = EventKind.task_started := rfl


theorem timeoutErrorEvent_kind (session_id : String) (tms : Nat) :
    (timeoutErrorEvent session_id tms).kind = EventKind.error := rfl

theorem timeoutErrorEvent_terminal (session_id : String) (tms : Nat) :
    isTerminalEvent (timeoutErrorEvent session_id tms) = true := by
  simp [isTerminalEvent, timeoutErrorEvent_is_timeout]

theorem claimC1holds_timeout (session_id : String) (tms : Nat)
    (mids : List Event)
    (hmids : ∀ e ∈ mids, neutralEvent e = true) :
    claimC1holds (taskStartedEvent session_id :: mids ++
      [timeoutErrorEvent session_id tms]) = true := by
  have hms := neutral_countP_started hmids
  have hmt := neutral_countP_terminal hmids
  have hmy := neutral_any_timeout hmids
  have hmc := neutral_any_completed hmids
  have hlast : (taskStartedEvent session_id :: mids ++
      [timeoutErrorEvent session_id tms]).getLast?
      = some (timeoutErrorEvent session_id tms) :=
    List.getLast?_concat _
  unfold claimC1holds
  rw [hlast]
  simp only [List.head?_cons, List.countP_cons, List.countP_append,
    List.any_cons, List.any_append, List.countP_nil, List.any_nil,
    hms, hmt, hmy, hmc, taskStartedEvent_kind, timeoutErrorEvent_kind,
    started_not_terminal, started_not_timeout, timeoutErrorEvent_terminal,
    timeoutErrorEvent_is_timeout]
  simp [taskStartedEvent_kind]

/-- Every event a session with completed setup ever emits; its future then
pends in the select loop forever. -/
def liveEvents (req : ExecRequest) (w : World) (child : SpawnedChild) :
    List Event :=
  taskStartedEvent (req.session_id.getD w.freshUuid) ::
    (loopOf w (req.session_id.getD w.freshUuid) child).events

theorem run_codex_stream_timeout (req : ExecRequest) (w : World)
    (hf : timeoutFires (run_process_with_ref req.prompt
        (req.timeout_ms.getD 30000) (req.session_id.getD w.freshUuid) w) w
      = true) :
    run_codex_app_server_stream req w =
      ⟨(run_process_with_ref req.prompt (req.timeout_ms.getD 30000)
          (req.session_id.getD w.freshUuid) w).events.take w.deadlineAt ++
         [timeoutErrorEvent (req.session_id.getD w.freshUuid)
            (req.timeout_ms.getD 30000)],
       some (timeoutPersistData (req.session_id.getD w.freshUuid) req.prompt
          (req.timeout_ms.getD 30000) w.now),
       w.spawnOutcome.isSome⟩ := by
  simp only [run_codex_app_server_stream, hf, if_true]

theorem run_codex_stream_finished (req : ExecRequest) (w : World)
    (hf : timeoutFires (run_process_with_ref req.prompt
        (req.timeout_ms.getD 30000) (req.session_id.getD w.freshUuid) w) w
      = false) :
    run_codex_app_server_stream req w =
      ⟨(run_process_with_ref req.prompt (req.timeout_ms.getD 30000)
          (req.session_id.getD w.freshUuid) w).events,
       none, false⟩ := by
  simp only [run_codex_app_server_stream, hf, Bool.false_eq_true, if_false]

theorem run_live_events_eq (req : ExecRequest) (w : World)
    (child : SpawnedChild)
    (hsp : w.spawnOutcome = some child)
    (h1 : child.stdinAvail = true) (h2 : child.writeOk = true)
    (h3 : child.stdoutAvail = true) (h4 : child.stderrAvail = true) :
    (run_process_with_ref req.prompt (req.timeout_ms.getD 30000)
        (req.session_id.getD w.freshUuid) w).events
      = liveEvents req w child := by
  rw [run_process_with_ref_success req.prompt (req.timeout_ms.getD 30000)
    (req.session_id.getD w.freshUuid) w child hsp h1 h2 h3 h4]
  rfl

theorem liveEvents_mids_neutral (req : ExecRequest) (w : World)
    (child : SpawnedChild) :
    ∀ e ∈ (loopOf w (req.session_id.getD w.freshUuid) child).events,
      neutralEvent e = true :=
  runLoop_events_neutral w.parse (req.session_id.getD w.freshUuid) _

/-- C1 (amended): for every accepted request whose session setup succeeds
(spawn, stdin acquisition, stdin write, stdout/stderr pipe acquisition),
the event sequence starts with exactly one `task_started`, ends with
exactly one terminal event, no event follows it, and the two terminal
outcomes are mutually exclusive — and because the select loop never
terminates, that terminal event is always the timeout `error`, never a
`task_completed`. The deadline can only act after the first poll has
emitted `task_started` (`hcut`). -/
theorem c1_event_sequence_protocol (req : ExecRequest) (w : World)
    (child : SpawnedChild)
    (hsp : w.spawnOutcome = some child)
    (h1 : child.stdinAvail = true) (h2 : child.writeOk = true)
    (h3 : child.stdoutAvail = true) (h4 : child.stderrAvail = true)
    (hcut : 1 ≤ w.deadlineAt) :
    claimC1holds (run_codex_app_server_stream req w).events = true := by
  have hev := run_live_events_eq req w child hsp h1 h2 h3 h4
  have hmids := liveEvents_mids_neutral req w child
  rw [run_codex_stream_timeout req w
    (timeoutFires_of_success req.prompt (req.timeout_ms.getD 30000)
      (req.session_id.getD w.freshUuid) w child hsp h1 h2 h3 h4), hev]
  obtain ⟨k', hk'⟩ : ∃ k', w.deadlineAt = k' + 1 :=
    ⟨w.deadlineAt - 1, (Nat.succ_pred_eq_of_pos hcut).symm⟩
  unfold liveEvents
  rw [hk', List.take_succ_cons]
  exact claimC1holds_timeout _ _ _
    (fun e he => hmids e (List.take_subset _ _ he))

/-- A parse oracle that rejects every line (serde's behaviour on non-JSON). -/
def failParse : String → ParseOutcome := fun _ => .fail "expected value"

/-- A request like the spec's concrete scenario. -/
def reqEchoHi : ExecRequest := ⟨"echo hi", some 5000, some "sid-1"⟩

/-- A world in which `cmd.spawn()` fails (and the failure beats the
deadline). -/
def spawnFailWorld : World :=
  ⟨fsBare, failParse, fun _ => none, none,
   "No such file or directory (os error 2)", [], 0, "uuid-1", 9⟩

/-- C1 counterexample: when the spawn fails, the session's event sequence is
`task_started` followed by a spawn-failure `error` — its last element is
neither a `task_completed` nor a timeout `error`, so the claimed invariant
is false for this accepted request. -/
theorem c1_claim_counterexample_spawn_failure :
    claimC1holds (run_codex_app_server_stream reqEchoHi spawnFailWorld).events
      = false
    ∧ (run_codex_app_server_stream reqEchoHi spawnFailWorld).events
      = [taskStartedEvent "sid-1",
         ⟨.error, .text "Failed to spawn process: No such file or directory (os error 2)"⟩] :=
  ⟨rfl, rfl⟩

/-- A child whose pipes all come up and which exits 0. -/
def okChild : SpawnedChild := ⟨true, true, "", true, true, "", "", some ⟨some 0, true⟩⟩

/-- A world in which setup succeeds; the deadline (which such a session can
never beat) elapses after five events. -/
def okWorld : World :=
  ⟨fsBare, failParse, fun _ => none, some okChild, "", [], 7, "uuid-1", 5⟩

theorem c1_event_sequence_protocol_witness :
    claimC1holds (run_codex_app_server_stream reqEchoHi okWorld).events = true :=
  c1_event_sequence_protocol reqEchoHi okWorld okChild rfl rfl rfl rfl rfl
    (by decide)

theorem run_spawn_fail (prompt : String) (tms : Nat) (session_id : String)
    (w : World) (hsp : w.spawnOutcome = none) :
    run_process_with_ref prompt tms session_id w =
      ⟨[taskStartedEvent session_id,
        ⟨.error, .text ("Failed to spawn process: " ++ w.spawnErr)⟩],
       [], true, false⟩ := by
  obtain ⟨p, hp⟩ :=
    Option.isSome_iff_exists.mp (find_app_server_binary_isSome w.fs)
  simp [run_process_with_ref, hp, hsp]

theorem run_stdin_fail (prompt : String) (tms : Nat) (session_id : String)
    (w : World) (child : SpawnedChild) (hsp : w.spawnOutcome = some child)
    (h1 : child.stdinAvail = false) :
    run_process_with_ref prompt tms session_id w =
      ⟨[taskStartedEvent session_id, ⟨.error, .text "Failed to open stdin"⟩],
       [], true, false⟩ := by
  obtain ⟨p, hp⟩ :=
    Option.isSome_iff_exists.mp (find_app_server_binary_isSome w.fs)
  simp [run_process_with_ref, hp, hsp, h1]

theorem run_write_fail (prompt : String) (tms : Nat) (session_id : String)
    (w : World) (child : SpawnedChild) (hsp : w.spawnOutcome = some child)
    (h1 : child.stdinAvail = true) (h2 : child.writeOk = false) :
    run_process_with_ref prompt tms session_id w =
      ⟨[taskStartedEvent session_id,
        ⟨.error, .text ("Failed to write to stdin: " ++ child.writeErr)⟩],
       [], true, false⟩ := by
  obtain ⟨p, hp⟩ :=
    Option.isSome_iff_exists.mp (find_app_server_binary_isSome w.fs)
  simp [run_process_with_ref, hp, hsp, h1, h2]

theorem run_stdout_panic (prompt : String) (tms : Nat) (session_id : String)
    (w : World) (child : SpawnedChild) (hsp : w.spawnOutcome = some child)
    (h1 : child.stdinAvail = true) (h2 : child.writeOk = true)
    (h3 : child.stdoutAvail = false) :
    run_process_with_ref prompt tms session_id w =
      ⟨[taskStartedEvent session_id], [initCmd, execCmd prompt tms],
       false, true⟩ := by
  obtain ⟨p, hp⟩ :=
    Option.isSome_iff_exists.mp (find_app_server_binary_isSome w.fs)
  simp [run_process_with_ref, hp, hsp, h1, h2, h3]

theorem run_stderr_panic (prompt : String) (tms : Nat) (session_id : String)
    (w : World) (child : SpawnedChild) (hsp : w.spawnOutcome = some child)
    (h1 : child.stdinAvail = true) (h2 : child.writeOk = true)
    (h3 : child.stdoutAvail = true) (h4 : child.stderrAvail = false) :
    run_process_with_ref prompt tms session_id w =
      ⟨[taskStartedEvent session_id], [initCmd, execCmd prompt tms],
       false, true⟩ := by
  obtain ⟨p, hp⟩ :=
    Option.isSome_iff_exists.mp (find_app_server_binary_isSome w.fs)
  simp [run_process_with_ref, hp, hsp, h1, h2, h3, h4]

theorem textEvent_not_timeout (k : EventKind) (s : String) :
    isTimeoutError ⟨k, .text s⟩ = false := by
  cases k <;> rfl

/-- On every path of the session future: no event is the timeout `error`
and no event is a `task_completed` — the code that would emit one sits
after the non-terminating select loop and is dead. -/
theorem run_events_shape (prompt : String) (tms : Nat) (session_id : String)
    (w : World) :
    ∀ e ∈ (run_process_with_ref prompt tms session_id w).events,
      isTimeoutError e = false
      ∧ (e.kind == EventKind.task_completed) = false := by
  cases hsp : w.spawnOutcome with
  | none =>
    rw [run_spawn_fail prompt tms session_id w hsp]
    intro e he
    rcases List.mem_cons.mp he with rfl | he
    · exact ⟨started_not_timeout _, rfl⟩
    · simp only [List.mem_singleton] at he
      subst he
      exact ⟨textEvent_not_timeout _ _, rfl⟩
  | some child =>
    cases h1 : child.stdinAvail with
    | false =>
      rw [run_stdin_fail prompt tms session_id w child hsp h1]
      intro e he
      rcases List.mem_cons.mp he with rfl | he
      · exact ⟨started_not_timeout _, rfl⟩
      · simp only [List.mem_singleton] at he
        subst he
        exact ⟨textEvent_not_timeout _ _, rfl⟩
    | true =>
      cases h2 : child.writeOk with
      | false =>
        rw [run_write_fail prompt tms session_id w child hsp h1 h2]
        intro e he
        rcases List.mem_cons.mp he with rfl | he
        · exact ⟨started_not_timeout _, rfl⟩
        · simp only [List.mem_singleton] at he
          subst he
          exact ⟨textEvent_not_timeout _ _, rfl⟩
      | true =>
        cases h3 : child.stdoutAvail with
        | false =>
          rw [run_stdout_panic prompt tms session_id w child hsp h1 h2 h3]
          intro e he
          simp only [List.mem_singleton] at he
          subst he
          exact ⟨started_not_timeout _, rfl⟩
        | true =>
          cases h4 : child.stderrAvail with
          | false =>
            rw [run_stderr_panic prompt tms session_id w child hsp h1 h2 h3 h4]
            intro e he
            simp only [List.mem_singleton] at he
            subst he
            exact ⟨started_not_timeout _, rfl⟩
          | true =>
            rw [run_process_with_ref_success prompt tms session_id w child
              hsp h1 h2 h3 h4]
            intro e he
            rcases List.mem_cons.mp he with rfl | he
            · exact ⟨started_not_timeout _, rfl⟩
            · have hn := neutralEvent_spec
                (runLoop_events_neutral w.parse session_id _ e he)
              exact ⟨hn.2.2, hn.2.1⟩

/-- C3: `timeoutMs` elapsing before the session future completes is exactly
the case in which the deadline branch fires (`hf`); then the stored child
handle (present exactly when spawn succeeded) is killed, the stream ends
with exactly one timeout `error` event whose payload carries the session
id and the timeout value, and no `task_completed` event is ever emitted
for that session. -/
theorem c3_timeout_terminates (req : ExecRequest) (w : World)
    (hf : timeoutFires (run_process_with_ref req.prompt
        (req.timeout_ms.getD 30000) (req.session_id.getD w.freshUuid) w) w
      = true) :
    (run_codex_app_server_stream req w).events.countP isTimeoutError = 1
    ∧ (run_codex_app_server_stream req w).events.getLast?
        = some (timeoutErrorEvent (req.session_id.getD w.freshUuid)
            (req.timeout_ms.getD 30000))
    ∧ (timeoutErrorEvent (req.session_id.getD w.freshUuid)
          (req.timeout_ms.getD 30000)).data
        = .json (.obj
            [("session_id", .str (req.session_id.getD w.freshUuid)),
             ("error", .str "timeout"),
             ("message", .str ("Subprocesso excedeu o tempo limite de "
                ++ toString (req.timeout_ms.getD 30000)
                ++ "ms e foi encerrado forçadamente"))])
    ∧ (run_codex_app_server_stream req w).events.countP
        (fun e => e.kind == EventKind.task_completed) = 0
    ∧ (run_codex_app_server_stream req w).childKilled = w.spawnOutcome.isSome := by
  have hsh := run_events_shape req.prompt (req.timeout_ms.getD 30000)
    (req.session_id.getD w.freshUuid) w
  simp only [run_codex_stream_timeout req w hf]
  refine ⟨?_, List.getLast?_concat _, by trivial, ?_, by trivial⟩
  · rw [List.countP_append,
      List.countP_eq_zero.mpr
        (fun e he => by simp [(hsh e (List.take_subset _ _ he)).1])]
    simp [List.countP_cons, timeoutErrorEvent_is_timeout]
  · rw [List.countP_append,
      List.countP_eq_zero.mpr
        (fun e he => by simp [(hsh e (List.take_subset _ _ he)).2])]
    simp [List.countP_cons, timeoutErrorEvent_kind]

/-- A setup-success world with a tight deadline: only the first event has
been relayed when the timeout fires. -/
def timeoutWorld : World := { okWorld with deadlineAt := 1 }

theorem c3_timeout_terminates_witness :
    (run_codex_app_server_stream reqEchoHi timeoutWorld).events.countP
        isTimeoutError = 1
    ∧ (run_codex_app_server_stream reqEchoHi timeoutWorld).events.countP
        (fun e => e.kind == EventKind.task_completed) = 0
    ∧ (run_codex_app_server_stream reqEchoHi timeoutWorld).childKilled = true :=
  ⟨(c3_timeout_terminates reqEchoHi timeoutWorld rfl).1,
   (c3_timeout_terminates reqEchoHi timeoutWorld rfl).2.2.2.1,
   ((c3_timeout_terminates reqEchoHi timeoutWorld rfl).2.2.2.2).trans rfl⟩

/-- Field lookup in an event's JSON payload. -/
def eventField (e : Event) (key : String) : Option Json :=
  match e.data with
  | .json j => j.get key
  | .text _ => none

/-- C4: the claim's premise — a session that completes before the
deadline — is unsatisfiable and the `task_completed` event it constrains
(process.rs lines 346–356) is dead code: a session with completed setup
never finishes, because the select loop cannot break (the original channel
senders are never dropped, so `recv()` never yields `None`) and the
post-loop code would re-lock the still-held `child_ref`; so no
`task_completed` is ever emitted and every such session ends in the
timeout branch. -/
theorem c4_task_completed_dead_code (req : ExecRequest) (w : World)
    (child : SpawnedChild)
    (hsp : w.spawnOutcome = some child)
    (h1 : child.stdinAvail = true) (h2 : child.writeOk = true)
    (h3 : child.stdoutAvail = true) (h4 : child.stderrAvail = true) :
    (run_process_with_ref req.prompt (req.timeout_ms.getD 30000)
        (req.session_id.getD w.freshUuid) w).completes = false
    ∧ (run_codex_app_server_stream req w).events.countP
        (fun e => e.kind == EventKind.task_completed) = 0
    ∧ (run_codex_app_server_stream req w).events.getLast?
        = some (timeoutErrorEvent (req.session_id.getD w.freshUuid)
            (req.timeout_ms.getD 30000)) := by
  have hf := timeoutFires_of_success req.prompt (req.timeout_ms.getD 30000)
    (req.session_id.getD w.freshUuid) w child hsp h1 h2 h3 h4
  have hsh := run_events_shape req.prompt (req.timeout_ms.getD 30000)
    (req.session_id.getD w.freshUuid) w
  refine ⟨?_, ?_, ?_⟩
  · rw [run_process_with_ref_success req.prompt (req.timeout_ms.getD 30000)
      (req.session_id.getD w.freshUuid) w child hsp h1 h2 h3 h4]
  · simp only [run_codex_stream_timeout req w hf]
    rw [List.countP_append,
      List.countP_eq_zero.mpr
        (fun e he => by simp [(hsh e (List.take_subset _ _ he)).2])]
    simp [List.countP_cons, timeoutErrorEvent_kind]
  · simp only [run_codex_stream_timeout req w hf]
    exact List.getLast?_concat _

theorem c4_task_completed_dead_code_witness :
    (run_process_with_ref "echo hi" 5000 "sid-1" okWorld).completes = false
    ∧ (run_codex_app_server_stream reqEchoHi okWorld).events.countP
        (fun e => e.kind == EventKind.task_completed) = 0 := by
  obtain ⟨hc, hn, _⟩ :=
    c4_task_completed_dead_code reqEchoHi okWorld okChild rfl rfl rfl rfl rfl
  exact ⟨hc, hn⟩

/-- C5: a stdout line that is not valid JSON yields exactly one
`stdout_line` event carrying the raw line and exactly one `json_parse`
`error` event carrying the session id, the parse message and the raw line,
and the select loop keeps processing subsequent lines unchanged. -/
theorem c5_malformed_line_robust (parse : String → ParseOutcome)
    (session_id line msg : String) (rest : List Tagged)
    (hfail : parse line = .fail msg) :
    processStdoutLine parse session_id line
      = [⟨.stdout_line, .text line⟩, jsonParseErrorEvent session_id msg line]
    ∧ (jsonParseErrorEvent session_id msg line).kind = EventKind.error
    ∧ eventField (jsonParseErrorEvent session_id msg line) "session_id"
        = some (.str session_id)
    ∧ eventField (jsonParseErrorEvent session_id msg line) "error"
        = some (.str "json_parse")
    ∧ eventField (jsonParseErrorEvent session_id msg line) "message"
        = some (.str ("Erro ao fazer parsing de stdout: " ++ msg))
    ∧ eventField (jsonParseErrorEvent session_id msg line) "line"
        = some (.str line)
    ∧ (runLoop parse session_id (Tagged.fromOut line :: rest)).events
        = ⟨.stdout_line, .text line⟩ :: jsonParseErrorEvent session_id msg line
            :: (runLoop parse session_id rest).events := by
  refine ⟨?_, rfl, ?_, ?_, ?_, ?_, ?_⟩
  · simp [processStdoutLine, hfail]
  · simp [jsonParseErrorEvent, eventField, Json.get, lookupField]
  · simp [jsonParseErrorEvent, eventField, Json.get, lookupField]
  · simp [jsonParseErrorEvent, eventField, Json.get, lookupField]
  · simp [jsonParseErrorEvent, eventField, Json.get, lookupField]
  · simp [runLoop, processStdoutLine, hfail]

theorem c5_malformed_line_robust_witness :
    processStdoutLine failParse "sid-1" "not json"
      = [⟨.stdout_line, .text "not json"⟩,
         jsonParseErrorEvent "sid-1" "expected value" "not json"]
    ∧ (runLoop failParse "sid-1"
        [Tagged.fromOut "not json", Tagged.fromOut "also bad"]).events
      = ⟨.stdout_line, .text "not json"⟩ ::
          jsonParseErrorEvent "sid-1" "expected value" "not json" ::
          (runLoop failParse "sid-1" [Tagged.fromOut "also bad"]).events := by
  obtain ⟨h1, _, _, _, _, _, h7⟩ :=
    c5_malformed_line_robust failParse "sid-1" "not json" "expected value"
      [Tagged.fromOut "also bad"] rfl
  exact ⟨h1, h7⟩

theorem progressEvents_nil (j : Json)
    (h : (j.get "method").bind Json.asStr ≠ some "task/progress") :
    progressEvents j = [] := by
  unfold progressEvents
  cases hm : (j.get "method").bind Json.asStr with
  | none => rfl
  | some m =>
    have hne : m ≠ "task/progress" := fun hmm => h (by rw [hm, hmm])
    simp [hne]

theorem resultEvents_nil (j : Json)
    (h : ¬((j.get "id").bind Json.asI64 = some 2
        ∧ (j.get "result").isSome = true)) :
    resultEvents j = [] := by
  unfold resultEvents
  cases hid : (j.get "id").bind Json.asI64 with
  | none => rfl
  | some i =>
    by_cases hi : i = 2
    · subst hi
      cases hr : j.get "result" with
      | none => simp
      | some r => exact absurd ⟨hid, by rw [hr]; rfl⟩ h
    · simp [hi]

theorem progressEvents_countP_result (j : Json) :
    (progressEvents j).countP (fun e => e.kind == EventKind.task_result)
      = 0 := by
  unfold progressEvents
  cases (j.get "method").bind Json.asStr with
  | none => rfl
  | some m => by_cases hm : m = "task/progress" <;> simp [hm]

/-- C6: a stdout line parsed as a document with integer `id` 2 and a
`result` field yields exactly one `task_result` event whose payload is that
`result` value verbatim; a parsed document with neither the `task/progress`
method nor an id-2 `result` yields no typed event beyond the raw
`stdout_line`. -/
theorem c6_task_result_translation (parse : String → ParseOutcome)
    (session_id line : String) (j : Json)
    (hok : parse line = .ok j) :
    (∀ r, (j.get "id").bind Json.asI64 = some 2 → j.get "result" = some r →
      (processStdoutLine parse session_id line).countP
          (fun e => e.kind == EventKind.task_result) = 1
      ∧ (⟨EventKind.task_result, .json r⟩ : Event)
          ∈ processStdoutLine parse session_id line)
    ∧ ((j.get "method").bind Json.asStr ≠ some "task/progress" →
       ¬((j.get "id").bind Json.asI64 = some 2
          ∧ (j.get "result").isSome = true) →
       processStdoutLine parse session_id line
         = [⟨.stdout_line, .text line⟩]) := by
  constructor
  · intro r hid hres
    have hre : resultEvents j = [⟨EventKind.task_result, .json r⟩] := by
      unfold resultEvents
      rw [hid]
      simp [hres]
    constructor
    · simp [processStdoutLine, hok, List.countP_append, hre,
        progressEvents_countP_result]
    · simp [processStdoutLine, hok, hre]
  · intro hm hr
    simp [processStdoutLine, hok, progressEvents_nil j hm,
      resultEvents_nil j hr]

/-- A JSON-RPC response line for the execution call: id 2 with a result. -/
def resultLine : String := "\x7b\x22id\x22:2,\x22result\x22:\x22ok\x22\x7d"

/-- The parsed value of `resultLine`. -/
def resultJson : Json := .obj [("id", .num 2), ("result", .str "ok")]

/-- A parse oracle recognizing exactly `resultLine`. -/
def okParse : String → ParseOutcome := fun l =>
  if l = resultLine then .ok resultJson else .fail "expected value"

theorem c6_task_result_translation_witness :
    (processStdoutLine okParse "sid-1" resultLine).countP
        (fun e => e.kind == EventKind.task_result) = 1
    ∧ (⟨EventKind.task_result, .json (.str "ok")⟩ : Event)
        ∈ processStdoutLine okParse "sid-1" resultLine := by
  obtain ⟨hc, hm⟩ :=
    (c6_task_result_translation okParse "sid-1" resultLine resultJson
      (by simp [okParse])).1 (.str "ok") rfl rfl
  exact ⟨hc, hm⟩

/-- A child whose stdout handle is unavailable after spawn. -/
def noStdoutChild : SpawnedChild :=
  ⟨true, true, "", false, true, "", "", some ⟨some 0, true⟩⟩

/-- A world in which `child.stdout.take()` would return `None`. -/
def noStdoutWorld : World := { okWorld with spawnOutcome := some noStdoutChild }

/-- C8 counterexample: with the stdout handle unavailable, the session task
hits `child.stdout.take().unwrap()` and panics — no `error` event is
emitted, contradicting the claim that pipe-setup failure never crashes. -/
theorem c8_claim_counterexample_stdout_unwrap :
    (run_process_with_ref "echo hi" 5000 "sid-1" noStdoutWorld).panicked = true
    ∧ (run_process_with_ref "echo hi" 5000 "sid-1" noStdoutWorld).events
        = [taskStartedEvent "sid-1"] :=
  ⟨rfl, rfl⟩

/-- C8 (amended): spawn failure, stdin unavailability and stdin write
failure are each reported as an `error` event followed by an early return
and no panic; inability to obtain the stdout or stderr handle, however,
panics the session task via `unwrap` instead of emitting an `error` event
(unreachable in practice since all three pipes are configured `piped`). -/
theorem c8_setup_failures_reported (prompt : String) (tms : Nat)
    (session_id : String) (w : World) :
    (w.spawnOutcome = none →
      run_process_with_ref prompt tms session_id w =
        ⟨[taskStartedEvent session_id,
          ⟨.error, .text ("Failed to spawn process: " ++ w.spawnErr)⟩],
         [], true, false⟩)
    ∧ (∀ child, w.spawnOutcome = some child → child.stdinAvail = false →
        run_process_with_ref prompt tms session_id w =
          ⟨[taskStartedEvent session_id,
            ⟨.error, .text "Failed to open stdin"⟩], [], true, false⟩)
    ∧ (∀ child, w.spawnOutcome = some child → child.stdinAvail = true →
        child.writeOk = false →
        run_process_with_ref prompt tms session_id w =
          ⟨[taskStartedEvent session_id,
            ⟨.error, .text ("Failed to write to stdin: " ++ child.writeErr)⟩],
           [], true, false⟩) :=
  ⟨run_spawn_fail prompt tms session_id w,
   fun child => run_stdin_fail prompt tms session_id w child,
   fun child => run_write_fail prompt tms session_id w child⟩

theorem c8_setup_failures_reported_witness :
    run_process_with_ref "echo hi" 5000 "sid-1" spawnFailWorld =
      ⟨[taskStartedEvent "sid-1",
        ⟨.error, .text "Failed to spawn process: No such file or directory (os error 2)"⟩],
       [], true, false⟩ :=
  (c8_setup_failures_reported "echo hi" 5000 "sid-1" spawnFailWorld).1 rfl

theorem stdoutLineOf_started (session_id : String) :
    stdoutLineOf (taskStartedEvent session_id) = none := rfl

theorem stdoutLineOf_timeoutError (session_id : String) (tms : Nat) :
    stdoutLineOf (timeoutErrorEvent session_id tms) = none := rfl

theorem stderrLineOf_started (session_id : String) :
    stderrLineOf (taskStartedEvent session_id) = none := rfl

theorem stderrLineOf_timeoutError (session_id : String) (tms : Nat) :
    stderrLineOf (timeoutErrorEvent session_id tms) = none := rfl

/-- Modelled from the spec's words, for comparison with the code (C9):
line splitting that discards partial trailing data without a terminating
newline. -/
def splitLinesDiscardingTrailing (s : String) : List String :=
  (((segmentsOf s.data).dropLast).map stripCRChars).map String.mk

/-- A parse oracle recognizing the single JSON number `7`. -/
def sevenParse : String → ParseOutcome := fun l =>
  if l = "7" then .ok (.num 7) else .fail "expected value"

/-- A child that prints `7` with no terminating newline and exits 0. -/
def unterminatedChild : SpawnedChild :=
  ⟨true, true, "", true, true, "7", "", some ⟨some 0, true⟩⟩

/-- A world around `unterminatedChild`. -/
def unterminatedWorld : World :=
  { okWorld with spawnOutcome := some unterminatedChild, parse := sevenParse }

/-- C9 counterexample: the trailing line `7` has no terminating newline;
under the claimed discard semantics it would produce no `stdout_line`
event, but the code forwards it as one. -/
theorem c9_claim_counterexample_trailing_line :
    splitLinesDiscardingTrailing "7" = []
    ∧ splitLines "7" = ["7"]
    ∧ (run_process_with_ref "echo hi" 5000 "sid-1"
          unterminatedWorld).events.countP
        (fun e => e.kind == EventKind.stdout_line) = 1 :=
  ⟨rfl, rfl, rfl⟩

/-- C9 (amended): in every session whose setup succeeds and whose output
is fully relayed before the deadline ends it (`hdl`), every line of each
output stream — including a final unterminated segment, which is forwarded
rather than discarded — becomes exactly one correspondingly tagged event,
preserving per-stream order; only the terminal timeout `error` follows
them. -/
theorem c9_per_stream_forwarding (req : ExecRequest) (w : World)
    (child : SpawnedChild)
    (hsp : w.spawnOutcome = some child)
    (h1 : child.stdinAvail = true) (h2 : child.writeOk = true)
    (h3 : child.stdoutAvail = true) (h4 : child.stderrAvail = true)
    (hdl : (run_process_with_ref req.prompt (req.timeout_ms.getD 30000)
        (req.session_id.getD w.freshUuid) w).events.length ≤ w.deadlineAt) :
    (run_codex_app_server_stream req w).events.filterMap stdoutLineOf
      = splitLines child.stdoutData
    ∧ (run_codex_app_server_stream req w).events.filterMap stderrLineOf
      = splitLines child.stderrData := by
  have hev := run_live_events_eq req w child hsp h1 h2 h3 h4
  rw [run_codex_stream_timeout req w
    (timeoutFires_of_success req.prompt (req.timeout_ms.getD 30000)
      (req.session_id.getD w.freshUuid) w child hsp h1 h2 h3 h4), hev]
  rw [hev] at hdl
  rw [List.take_of_length_le hdl]
  unfold liveEvents
  constructor
  · rw [List.cons_append, List.filterMap_cons, List.filterMap_append]
    simp only [stdoutLineOf_started, stdoutLineOf_timeoutError,
      List.filterMap_cons, List.filterMap_nil, List.append_nil]
    unfold loopOf
    rw [runLoop_stdout_lines, interleave_outLines]
  · rw [List.cons_append, List.filterMap_cons, List.filterMap_append]
    simp only [stderrLineOf_started, stderrLineOf_timeoutError,
      List.filterMap_cons, List.filterMap_nil, List.append_nil]
    unfold loopOf
    rw [runLoop_stderr_lines, interleave_errLines]

theorem c9_per_stream_forwarding_witness :
    (run_codex_app_server_stream reqEchoHi unterminatedWorld).events.filterMap
        stdoutLineOf = ["7"]
    ∧ (run_codex_app_server_stream reqEchoHi unterminatedWorld).events.filterMap
        stderrLineOf = [] := by
  obtain ⟨ho, he⟩ := c9_per_stream_forwarding reqEchoHi unterminatedWorld
    unterminatedChild rfl rfl rfl rfl rfl (by decide)
  exact ⟨ho.trans rfl, he.trans rfl⟩

/-- C10: the record handed to `save_session_to_storage` on the timeout path
has exit_code −1, status `"timeout"`, empty stdout and stderr regardless of
what the child printed, execution_time_ms equal to the requested timeout
(not the measured elapsed time), and metadata `error: timeout`. -/
theorem c10_timeout_record (req : ExecRequest) (w : World)
    (hf : timeoutFires (run_process_with_ref req.prompt
        (req.timeout_ms.getD 30000) (req.session_id.getD w.freshUuid) w) w
      = true) :
    (run_codex_app_server_stream req w).persist
      = some ⟨req.session_id.getD w.freshUuid, req.prompt, -1, "timeout",
          req.timeout_ms.getD 30000, [], [], none, w.now,
          .obj [("error", .str "timeout")]⟩
    ∧ ((run_codex_app_server_stream req w).persist.map (·.execution_time_ms))
      = some (req.timeout_ms.getD 30000) := by
  simp only [run_codex_stream_timeout req w hf]
  exact ⟨rfl, rfl⟩

theorem c10_timeout_record_witness :
    (run_codex_app_server_stream reqEchoHi timeoutWorld).persist
      = some ⟨"sid-1", "echo hi", -1, "timeout", 5000, [], [], none, 7,
          .obj [("error", .str "timeout")]⟩ :=
  ((c10_timeout_record reqEchoHi timeoutWorld rfl).1).trans rfl
